import Mathlib

/-!
Verification of the ocean data collector (`src/ocean_collector.py`).

Shallow embedding conventions:
* SQLite tables become Lean lists held in a `CollectorState` record; an SQL
  `INSERT` appends to the corresponding list.
* Python floats become rationals (`ℚ`); the thresholds 30, 7.8 and 4 and the
  heat-content arithmetic are exact in `ℚ`.
* Timestamps are ISO-8601 strings in the source, compared lexicographically by
  SQLite, which agrees with chronological order; they are modelled as `Int`.
  `datetime.now()` becomes an explicit `now : Int` argument.
* `uuid.uuid4().hex[:8].upper()` in `deploy_sensor` becomes an explicit
  `fresh : String` argument.
* A Python function that may `raise` returns `Except String α × CollectorState`;
  the error branch returns the original state (nothing was committed).
-/

namespace OceanCollector

/-- Row of the `sensors` table / the `OceanSensor` dataclass.
`last_reading_ts` is nullable in the schema, hence `Option`. -/
structure OceanSensor where
  id : String
  name : String
  type : String
  lat : ℚ
  lon : ℚ
  depth_m : ℚ
  status : String
  last_reading_ts : Option Int
deriving DecidableEq, Repr

/-- Row of the `readings` table / the `OceanReading` dataclass. -/
structure OceanReading where
  sensor_id : String
  temperature_c : ℚ
  salinity_psu : ℚ
  ph : ℚ
  dissolved_o2_mgl : ℚ
  current_ms : ℚ
  depth_m : ℚ
  timestamp : Int
deriving DecidableEq, Repr

/-- Row of the `anomalies` table. -/
structure Anomaly where
  sensor_id : String
  type : String
  value : ℚ
  severity : String
  timestamp : Int
deriving DecidableEq, Repr

/-- The persistent store: the three tables, rows in insertion order. -/
structure CollectorState where
  sensors : List OceanSensor
  readings : List OceanReading
  anomalies : List Anomaly
deriving DecidableEq, Repr

/-- The six values of the `SensorType` enum, as `[t.value for t in SensorType]`
enumerates them in `deploy_sensor`. -/
def sensorTypeValues : List String :=
  ["buoy", "argo_float", "glider", "mooring", "auv", "ctd"]

/-- `SELECT * FROM sensors WHERE id = ?` — `id` is the primary key, so at most
one row; modelled as the first list entry with that id. -/
def findSensor (s : CollectorState) (sensor_id : String) : Option OceanSensor :=
  s.sensors.find? (fun x => x.id = sensor_id)

/-- `OceanDataCollector.deploy_sensor` (lines 120-146).  The generated id is
`"S_" ++ fresh` where `fresh` stands for the uuid hex fragment.  An invalid
type raises `ValueError` before anything is written. -/
def deploy_sensor (s : CollectorState) (name : String) (type_ : String)
    (lat lon depth_m : ℚ) (fresh : String) :
    Except String OceanSensor × CollectorState :=
  if type_ ∈ sensorTypeValues then
    let sensor : OceanSensor :=
      { id := "S_" ++ fresh, name := name, type := type_, lat := lat, lon := lon,
        depth_m := depth_m, status := "active", last_reading_ts := none }
    (Except.ok sensor, { s with sensors := s.sensors ++ [sensor] })
  else
    (Except.error "Invalid type", s)

/-- `OceanDataCollector._check_anomalies` (lines 180-195): the three
independent threshold rules, each appending one anomaly row when breached. -/
def check_anomalies (sensor_id : String) (temp ph o2 : ℚ) (timestamp : Int) :
    List Anomaly :=
  (if temp > 30 then
    [{ sensor_id := sensor_id, type := "high_temperature", value := temp,
       severity := "warning", timestamp := timestamp }]
   else []) ++
  (if ph < 7.8 then
    [{ sensor_id := sensor_id, type := "ocean_acidification", value := ph,
       severity := "critical", timestamp := timestamp }]
   else []) ++
  (if o2 < 4 then
    [{ sensor_id := sensor_id, type := "hypoxia", value := o2,
       severity := "critical", timestamp := timestamp }]
   else [])

/-- Line 161, `depth = depth or sensor_row[5]`: Python `or` takes the nominal
depth not only when `depth` is `None` but also when it is falsy, i.e. `0`. -/
def resolveDepth (depth : Option ℚ) (nominal : ℚ) : ℚ :=
  match depth with
  | none => nominal
  | some d => if d = 0 then nominal else d

/-- `OceanDataCollector.ingest_reading` (lines 148-178): look up the sensor
(raising if absent), resolve depth, insert the reading, update the sensor's
last-reading pointer, run the anomaly rules, commit, return the reading. -/
def ingest_reading (s : CollectorState) (sensor_id : String)
    (temp salinity ph o2 : ℚ) (current : ℚ) (depth : Option ℚ) (now : Int) :
    Except String OceanReading × CollectorState :=
  match findSensor s sensor_id with
  | none => (Except.error ("Sensor " ++ sensor_id ++ " not found"), s)
  | some sensor =>
    let d := resolveDepth depth sensor.depth_m
    let rd : OceanReading :=
      { sensor_id := sensor_id, temperature_c := temp, salinity_psu := salinity,
        ph := ph, dissolved_o2_mgl := o2, current_ms := current, depth_m := d,
        timestamp := now }
    let s' : CollectorState :=
      { sensors := s.sensors.map (fun x =>
          if x.id = sensor_id then { x with last_reading_ts := some now } else x),
        readings := s.readings ++ [rd],
        anomalies := s.anomalies ++ check_anomalies sensor_id temp ph o2 now }
    (Except.ok rd, s')

/-- Helper for `get_latest`: the reading with the maximal timestamp, the
later-inserted row winning ties (`ORDER BY timestamp DESC LIMIT 1`; SQLite
leaves the tie order open, a deterministic tie-break is fixed here). -/
def latestOf : List OceanReading → Option OceanReading
  | [] => none
  | r :: rs =>
    match latestOf rs with
    | none => some r
    | some b => if b.timestamp ≥ r.timestamp then some b else some r

/-- `OceanDataCollector.get_latest` (lines 197-210). -/
def get_latest (s : CollectorState) (sensor_id : String) : Option OceanReading :=
  latestOf (s.readings.filter (fun r => r.sensor_id = sensor_id))

/-- `OceanDataCollector.get_history` (lines 212-225): readings of the sensor
with `timestamp > now - window`, ordered by timestamp descending
(`window` models `timedelta(hours=hours)` in the abstract time unit). -/
def get_history (s : CollectorState) (sensor_id : String) (now window : Int) :
    List OceanReading :=
  let cutoff := now - window
  (s.readings.filter
      (fun r => r.sensor_id = sensor_id ∧ r.timestamp > cutoff)).mergeSort
    (fun a b => b.timestamp ≤ a.timestamp)

/-- Python `round` at a given halfway point rounds to the even neighbour;
this is `round(q, 2)` restricted to what `calculate_heat_content` needs:
round half to even at the integers. -/
def roundHalfEven (q : ℚ) : Int :=
  let f := ⌊q⌋
  if q - f < 1/2 then f
  else if 1/2 < q - f then f + 1
  else if f % 2 = 0 then f else f + 1

/-- `round(x, 2)`: round half to even at two decimal places. -/
def roundTo2 (q : ℚ) : ℚ :=
  (roundHalfEven (q * 100) : ℚ) / 100

/-- Result record of `calculate_heat_content`. -/
structure HeatContent where
  total_heat_content_kj_m2 : ℚ
  average_heat_kj_m2 : ℚ
  sensors_sampled : Nat
deriving DecidableEq, Repr

/-- Loop body of `calculate_heat_content`: add the sensor's simplified heat
value and bump the count when it has a latest reading, else skip it. -/
def heatStep (s : CollectorState) (a : ℚ × Nat) (sensor_id : String) : ℚ × Nat :=
  match get_latest s sensor_id with
  | some latest =>
    (a.1 + latest.temperature_c * latest.depth_m * 4186 / 1000, a.2 + 1)
  | none => a

/-- `OceanDataCollector.calculate_heat_content` (lines 276-293): accumulate
`temperature * depth * 4186 / 1000` over the sensors that have a latest
reading; the returned total and average are rounded to two decimals. -/
def calculate_heat_content (s : CollectorState) (sensor_ids : List String) :
    HeatContent :=
  let acc := sensor_ids.foldl (heatStep s) (0, 0)
  { total_heat_content_kj_m2 := roundTo2 acc.1,
    average_heat_kj_m2 :=
      if acc.2 > 0 then roundTo2 (acc.1 / (acc.2 : ℚ)) else 0,
    sensors_sampled := acc.2 }

/-- Per-cell glyph selection of `heatmap_ascii` (lines 361-372): given the
parameter name and the cell's latest reading (`none` when the cell has no
sensor or the sensor has no reading), the single character rendered in the
cell (each cell is the glyph right-padded to width 6, uniformly). -/
def cellGlyph (parameter : String) (latest : Option OceanReading) : Char :=
  match latest with
  | some rd =>
    if parameter = "temperature" then
      if rd.temperature_c > 25 then Char.ofNat 0x2588
      else if rd.temperature_c > 15 then Char.ofNat 0x2589
      else '.'
    else if parameter = "salinity" then
      if rd.salinity_psu > 35 then '*'
      else if rd.salinity_psu > 33 then 'o'
      else '.'
    else '?'
  | none => '?'

/-- The per-sensor heat values that `calculate_heat_content` sums: one value
`temperature * depth * 4186 / 1000` for each listed sensor with a latest
reading. -/
def heatList (s : CollectorState) (sensor_ids : List String) : List ℚ :=
  (sensor_ids.filterMap (get_latest s)).map
    (fun l => l.temperature_c * l.depth_m * 4186 / 1000)

/-! Concrete fixtures used by witnesses and counterexamples, mirroring the
scenario of §8 of the spec: a deployed test buoy of nominal depth 100. -/

/-- A deployed test sensor (the §8 scenario sensor). -/
def testSensor : OceanSensor :=
  { id := "S_T1", name := "Test Buoy", type := "buoy", lat := 10, lon := 20,
    depth_m := 100, status := "active", last_reading_ts := none }

/-- Store holding just the test sensor and no readings. -/
def baseState : CollectorState :=
  { sensors := [testSensor], readings := [], anomalies := [] }

/-- A reading with temperature 1 and depth 1 (heat value 4.186). -/
def unitReading : OceanReading :=
  { sensor_id := "S_T1", temperature_c := 1, salinity_psu := 34, ph := 8,
    dissolved_o2_mgl := 5, current_ms := 0, depth_m := 1, timestamp := 0 }

/-- Store holding the test sensor and the one reading `unitReading`. -/
def heatState : CollectorState :=
  { sensors := [testSensor], readings := [unitReading], anomalies := [] }

/-! Inversion helpers. -/

/-- Successful ingestion happens only for an existing sensor, returns the
reading assembled from the arguments and the resolved depth, and the new store
is the old one with the reading appended, the sensor pointer updated, and the
triggered anomalies appended. -/
lemma ingest_ok_inv {s : CollectorState} {sensor_id : String}
    {temp salinity ph o2 current : ℚ} {depth : Option ℚ} {now : Int}
    {rd : OceanReading} {s' : CollectorState}
    (h : ingest_reading s sensor_id temp salinity ph o2 current depth now =
      (Except.ok rd, s')) :
    ∃ sensor, findSensor s sensor_id = some sensor ∧
      rd = { sensor_id := sensor_id, temperature_c := temp,
             salinity_psu := salinity, ph := ph, dissolved_o2_mgl := o2,
             current_ms := current, depth_m := resolveDepth depth sensor.depth_m,
             timestamp := now } ∧
      s' = { sensors := s.sensors.map (fun x =>
               if x.id = sensor_id then { x with last_reading_ts := some now }
               else x),
             readings := s.readings ++ [rd],
             anomalies :=
               s.anomalies ++ check_anomalies sensor_id temp ph o2 now } := by
  unfold ingest_reading at h
  cases hf : findSensor s sensor_id with
  | none => rw [hf] at h; simp at h
  | some sensor =>
    rw [hf] at h
    simp only [Prod.mk.injEq, Except.ok.injEq] at h
    exact ⟨sensor, rfl, h.1.symm, by rw [← h.1, ← h.2]⟩

/-- Appending a reading whose timestamp is strictly larger than every
timestamp in the list makes it the latest. -/
lemma latestOf_append_lt (l : List OceanReading) (r : OceanReading)
    (h : ∀ x ∈ l, x.timestamp < r.timestamp) : latestOf (l ++ [r]) = some r := by
  induction l with
  | nil => rfl
  | cons x xs ih =>
    have hx := h x (List.mem_cons_self x xs)
    have ih2 := ih (fun y hy => h y (List.mem_cons_of_mem _ hy))
    simp [latestOf, ih2, le_of_lt hx]

/-- C1: ingesting a reading for a sensor id that is not in the sensor table
fails with the not-found error, and the store is returned unchanged — no
reading row, no last-reading pointer update, and no anomaly row is
persisted by that call. -/
theorem C1_ingest_unknown_sensor_fails (s : CollectorState) (sensor_id : String)
    (temp salinity ph o2 current : ℚ) (depth : Option ℚ) (now : Int)
    (h : findSensor s sensor_id = none) :
    ingest_reading s sensor_id temp salinity ph o2 current depth now =
      (Except.error ("Sensor " ++ sensor_id ++ " not found"), s) := by
  unfold ingest_reading
  rw [h]

/-- Witness for C1: ingesting against the absent id `S_NONE` on the
single-sensor store fails and leaves the store as it was. -/
theorem C1_witness :
    ingest_reading baseState "S_NONE" 20 34 8 5 0 none 1 =
      (Except.error ("Sensor " ++ "S_NONE" ++ " not found"), baseState) :=
  C1_ingest_unknown_sensor_fails baseState "S_NONE" 20 34 8 5 0 none 1
    (by simp [findSensor, baseState, testSensor])

/-- C2: a successful ingest persists exactly one `high_temperature` anomaly,
with severity `warning` and value equal to the reading's temperature, when
the temperature exceeds 30, and none otherwise. -/
theorem C2_high_temperature_rule (s : CollectorState) (sensor_id : String)
    (temp salinity ph o2 current : ℚ) (depth : Option ℚ) (now : Int)
    (rd : OceanReading) (s' : CollectorState)
    (h : ingest_reading s sensor_id temp salinity ph o2 current depth now =
      (Except.ok rd, s')) :
    (s'.anomalies.drop s.anomalies.length).filter
        (fun a => a.type = "high_temperature") =
      if temp > 30 then
        [{ sensor_id := sensor_id, type := "high_temperature", value := temp,
           severity := "warning", timestamp := now }]
      else [] := by
  obtain ⟨sensor, hf, hrd, hs⟩ := ingest_ok_inv h
  subst hs
  simp only [List.drop_left]
  unfold check_anomalies
  split_ifs with h1 h2 h3 <;> simp

/-- Witness for C2: ingesting temperature 32 on the test sensor persists
exactly the one warning anomaly carrying value 32. -/
theorem C2_witness :
    ((ingest_reading baseState "S_T1" 32 34 8 5 0 none 1).2.anomalies.drop
        baseState.anomalies.length).filter
        (fun a => a.type = "high_temperature") =
      [{ sensor_id := "S_T1", type := "high_temperature", value := 32,
         severity := "warning", timestamp := 1 }] := by
  have h : ingest_reading baseState "S_T1" 32 34 8 5 0 none 1 =
      (Except.ok { sensor_id := "S_T1", temperature_c := 32, salinity_psu := 34,
                   ph := 8, dissolved_o2_mgl := 5, current_ms := 0,
                   depth_m := 100, timestamp := 1 },
       { sensors := [{ testSensor with last_reading_ts := some 1 }],
         readings := [{ sensor_id := "S_T1", temperature_c := 32,
                        salinity_psu := 34, ph := 8, dissolved_o2_mgl := 5,
                        current_ms := 0, depth_m := 100, timestamp := 1 }],
         anomalies := [{ sensor_id := "S_T1", type := "high_temperature",
                         value := 32, severity := "warning",
                         timestamp := 1 }] }) := by
    norm_num [ingest_reading, findSensor, baseState, testSensor, resolveDepth,
      check_anomalies]
  have h2 := C2_high_temperature_rule _ _ _ _ _ _ _ _ _ _ _ h
  rw [if_pos (by norm_num : (32 : ℚ) > 30)] at h2
  rw [h]
  exact h2

/-- C3 as stated is refuted: a reading that additionally breaches the
temperature rule (temperature 35, pH 7 < 7.8, oxygen 3 < 4) makes the
ingest persist three anomaly rows, not exactly two. -/
theorem C3_counterexample :
    (7 : ℚ) < 7.8 ∧ (3 : ℚ) < 4 ∧
    ((ingest_reading baseState "S_T1" 35 34 7 3 0 none 1).2.anomalies.drop
        baseState.anomalies.length).length = 3 := by
  refine ⟨by norm_num, by norm_num, ?_⟩
  norm_num [ingest_reading, findSensor, baseState, testSensor, resolveDepth,
    check_anomalies]

/-- C3 (amended): when pH < 7.8 and dissolved oxygen < 4 and the temperature
rule is not also breached (temperature ≤ 30), a successful ingest persists
exactly the two critical anomalies `ocean_acidification` and `hypoxia`; in
general the three rules are independent and the number of anomaly rows a
single ingest persists is the sum of the indicators of the three breaches
(hence 0, 1, 2 or 3). -/
theorem C3_acidification_hypoxia_rules (s : CollectorState) (sensor_id : String)
    (temp salinity ph o2 current : ℚ) (depth : Option ℚ) (now : Int)
    (rd : OceanReading) (s' : CollectorState)
    (h : ingest_reading s sensor_id temp salinity ph o2 current depth now =
      (Except.ok rd, s')) :
    (ph < 7.8 → o2 < 4 → temp ≤ 30 →
      s'.anomalies.drop s.anomalies.length =
        [{ sensor_id := sensor_id, type := "ocean_acidification", value := ph,
           severity := "critical", timestamp := now },
         { sensor_id := sensor_id, type := "hypoxia", value := o2,
           severity := "critical", timestamp := now }]) ∧
    (s'.anomalies.drop s.anomalies.length).length =
      (if temp > 30 then 1 else 0) + (if ph < 7.8 then 1 else 0) +
        (if o2 < 4 then 1 else 0) := by
  obtain ⟨sensor, hf, hrd, hs⟩ := ingest_ok_inv h
  subst hs
  constructor
  · intro h1 h2 h3
    simp only [List.drop_left]
    unfold check_anomalies
    rw [if_neg (not_lt.mpr h3), if_pos h1, if_pos h2]
    simp
  · simp only [List.drop_left]
    unfold check_anomalies
    split_ifs <;> simp

/-- Witness for C3 (amended): the §8 scenario reading (temperature 20,
pH 7.5, oxygen 3) persists exactly the two critical anomalies. -/
theorem C3_witness :
    (ingest_reading baseState "S_T1" 20 34 7.5 3 0 none 1).2.anomalies.drop
        baseState.anomalies.length =
      [{ sensor_id := "S_T1", type := "ocean_acidification", value := 7.5,
         severity := "critical", timestamp := 1 },
       { sensor_id := "S_T1", type := "hypoxia", value := 3,
         severity := "critical", timestamp := 1 }] := by
  have h : ingest_reading baseState "S_T1" 20 34 7.5 3 0 none 1 =
      (Except.ok { sensor_id := "S_T1", temperature_c := 20, salinity_psu := 34,
                   ph := 7.5, dissolved_o2_mgl := 3, current_ms := 0,
                   depth_m := 100, timestamp := 1 },
       { sensors := [{ testSensor with last_reading_ts := some 1 }],
         readings := [{ sensor_id := "S_T1", temperature_c := 20,
                        salinity_psu := 34, ph := 7.5, dissolved_o2_mgl := 3,
                        current_ms := 0, depth_m := 100, timestamp := 1 }],
         anomalies := [{ sensor_id := "S_T1", type := "ocean_acidification",
                         value := 7.5, severity := "critical", timestamp := 1 },
                       { sensor_id := "S_T1", type := "hypoxia", value := 3,
                         severity := "critical", timestamp := 1 }] }) := by
    norm_num [ingest_reading, findSensor, baseState, testSensor, resolveDepth,
      check_anomalies]
  have h2 := (C3_acidification_hypoxia_rules _ _ _ _ _ _ _ _ _ _ _ h).1
    (by norm_num) (by norm_num) (by norm_num)
  rw [h]
  exact h2

/-- C4: immediately after a successful ingest (every earlier reading of the
sensor carrying a strictly smaller timestamp, i.e. no intervening ingest at
the same instant), `get_latest` returns exactly the just-ingested reading,
whose fields are the ingested values, with the depth resolved against the
sensor's nominal depth. -/
theorem C4_get_latest_after_ingest (s : CollectorState) (sensor_id : String)
    (temp salinity ph o2 current : ℚ) (depth : Option ℚ) (now : Int)
    (rd : OceanReading) (s' : CollectorState)
    (h : ingest_reading s sensor_id temp salinity ph o2 current depth now =
      (Except.ok rd, s'))
    (hts : ∀ r ∈ s.readings, r.sensor_id = sensor_id → r.timestamp < now) :
    get_latest s' sensor_id = some rd ∧ rd.sensor_id = sensor_id ∧
    rd.temperature_c = temp ∧ rd.salinity_psu = salinity ∧ rd.ph = ph ∧
    rd.dissolved_o2_mgl = o2 ∧ rd.current_ms = current ∧ rd.timestamp = now ∧
    (∀ sensor, findSensor s sensor_id = some sensor →
      rd.depth_m = resolveDepth depth sensor.depth_m) := by
  obtain ⟨sensor, hf, hrd, hs⟩ := ingest_ok_inv h
  subst hs
  have hsid : rd.sensor_id = sensor_id := by rw [hrd]
  have htsr : rd.timestamp = now := by rw [hrd]
  refine ⟨?_, hsid, by rw [hrd], by rw [hrd], by rw [hrd], by rw [hrd],
    by rw [hrd], htsr, ?_⟩
  · unfold get_latest
    show latestOf ((s.readings ++ [rd]).filter _) = some rd
    rw [List.filter_append]
    have hone : [rd].filter (fun r => r.sensor_id = sensor_id) = [rd] := by
      simp [hsid]
    rw [hone]
    refine latestOf_append_lt _ _ ?_
    intro x hx
    rw [List.mem_filter] at hx
    rw [htsr]
    exact hts x hx.1 (by simpa using hx.2)
  · intro sensor2 hf2
    rw [hf] at hf2
    injection hf2 with he
    rw [hrd, he]

/-- Witness for C4: ingesting (20, 34, 8, 5) on the fresh test sensor and
asking `get_latest` right away returns that reading, depth defaulted to the
sensor's nominal 100. -/
theorem C4_witness :
    get_latest (ingest_reading baseState "S_T1" 20 34 8 5 0 none 1).2 "S_T1" =
      some { sensor_id := "S_T1", temperature_c := 20, salinity_psu := 34,
             ph := 8, dissolved_o2_mgl := 5, current_ms := 0, depth_m := 100,
             timestamp := 1 } := by
  have h : ingest_reading baseState "S_T1" 20 34 8 5 0 none 1 =
      (Except.ok { sensor_id := "S_T1", temperature_c := 20, salinity_psu := 34,
                   ph := 8, dissolved_o2_mgl := 5, current_ms := 0,
                   depth_m := 100, timestamp := 1 },
       { sensors := [{ testSensor with last_reading_ts := some 1 }],
         readings := [{ sensor_id := "S_T1", temperature_c := 20,
                        salinity_psu := 34, ph := 8, dissolved_o2_mgl := 5,
                        current_ms := 0, depth_m := 100, timestamp := 1 }],
         anomalies := [] }) := by
    norm_num [ingest_reading, findSensor, baseState, testSensor, resolveDepth,
      check_anomalies]
  have h2 := (C4_get_latest_after_ingest _ _ _ _ _ _ _ _ _ _ _ h
    (by intro r hr; simp [baseState] at hr)).1
  rw [h]
  exact h2

/-- C5 as stated is refuted: the test sensor has nominal depth 100, the
caller supplies depth 0, yet the ingested reading carries depth 100, not the
caller-supplied 0 (`depth or sensor_row[5]` treats 0 as absent). -/
theorem C5_counterexample :
    (ingest_reading baseState "S_T1" 20 34 8 5 0 (some 0) 1).1 =
      Except.ok { sensor_id := "S_T1", temperature_c := 20, salinity_psu := 34,
                  ph := 8, dissolved_o2_mgl := 5, current_ms := 0,
                  depth_m := 100, timestamp := 1 } ∧
    (100 : ℚ) ≠ 0 := by
  constructor
  · norm_num [ingest_reading, findSensor, baseState, testSensor, resolveDepth]
  · norm_num

/-- C5 (amended): the ingested reading's effective depth is the
caller-supplied depth whenever the caller supplies a nonzero depth; when the
caller supplies no depth, or supplies the (falsy) depth 0, it is the sensor's
nominal depth. -/
theorem C5_effective_depth (s : CollectorState) (sensor_id : String)
    (temp salinity ph o2 current : ℚ) (depth : Option ℚ) (now : Int)
    (sensor : OceanSensor) (rd : OceanReading) (s' : CollectorState)
    (hf : findSensor s sensor_id = some sensor)
    (h : ingest_reading s sensor_id temp salinity ph o2 current depth now =
      (Except.ok rd, s')) :
    ((depth = none ∨ depth = some 0) → rd.depth_m = sensor.depth_m) ∧
    (∀ d, depth = some d → d ≠ 0 → rd.depth_m = d) := by
  obtain ⟨sensor2, hf2, hrd, hs⟩ := ingest_ok_inv h
  rw [hf] at hf2
  injection hf2 with he
  subst he
  constructor
  · rintro (rfl | rfl) <;> simp [hrd, resolveDepth]
  · rintro d rfl hd
    simp [hrd, resolveDepth, hd]

/-- Witness for C5 (amended): with caller-supplied depth 0 the ingested
reading's depth is the nominal 100. -/
theorem C5_witness :
    (ingest_reading baseState "S_T1" 20 34 8 5 0 (some 0) 1).1 =
      Except.ok { sensor_id := "S_T1", temperature_c := 20, salinity_psu := 34,
                  ph := 8, dissolved_o2_mgl := 5, current_ms := 0,
                  depth_m := 100, timestamp := 1 } ∧
    ({ sensor_id := "S_T1", temperature_c := 20, salinity_psu := 34, ph := 8,
       dissolved_o2_mgl := 5, current_ms := 0, depth_m := 100,
       timestamp := 1 } : OceanReading).depth_m = testSensor.depth_m := by
  have h : ingest_reading baseState "S_T1" 20 34 8 5 0 (some 0) 1 =
      (Except.ok { sensor_id := "S_T1", temperature_c := 20, salinity_psu := 34,
                   ph := 8, dissolved_o2_mgl := 5, current_ms := 0,
                   depth_m := 100, timestamp := 1 },
       { sensors := [{ testSensor with last_reading_ts := some 1 }],
         readings := [{ sensor_id := "S_T1", temperature_c := 20,
                        salinity_psu := 34, ph := 8, dissolved_o2_mgl := 5,
                        current_ms := 0, depth_m := 100, timestamp := 1 }],
         anomalies := [] }) := by
    norm_num [ingest_reading, findSensor, baseState, testSensor, resolveDepth,
      check_anomalies]
  refine ⟨by rw [h], ?_⟩
  exact (C5_effective_depth _ _ _ _ _ _ _ _ _ _ _ _
    (by simp [findSensor, baseState, testSensor]) h).1 (Or.inr rfl)

/-- C6: deploying with a type string outside the six enumerated sensor types
fails with the validation error and writes no sensor row (the store is
unchanged); for every enumerated type string the check passes and the sensor
row is written. -/
theorem C6_deploy_type_validation (s : CollectorState) (name type_ : String)
    (lat lon depth_m : ℚ) (fresh : String) :
    (type_ ∉ sensorTypeValues →
      deploy_sensor s name type_ lat lon depth_m fresh =
        (Except.error "Invalid type", s)) ∧
    (type_ ∈ sensorTypeValues →
      deploy_sensor s name type_ lat lon depth_m fresh =
        (Except.ok { id := "S_" ++ fresh, name := name, type := type_,
                     lat := lat, lon := lon, depth_m := depth_m,
                     status := "active", last_reading_ts := none },
         { s with sensors := s.sensors ++
             [{ id := "S_" ++ fresh, name := name, type := type_, lat := lat,
                lon := lon, depth_m := depth_m, status := "active",
                last_reading_ts := none }] })) := by
  constructor <;> intro h <;> simp [deploy_sensor, h]

/-- Witness for C6: type `jellyfish` is rejected with the store unchanged,
while the enumerated type `buoy` passes the check and is written. -/
theorem C6_witness :
    deploy_sensor baseState "Bad" "jellyfish" 1 2 3 "AB12CD34" =
      (Except.error "Invalid type", baseState) ∧
    deploy_sensor baseState "Good" "buoy" 1 2 3 "AB12CD34" =
      (Except.ok { id := "S_" ++ "AB12CD34", name := "Good", type := "buoy",
                   lat := 1, lon := 2, depth_m := 3, status := "active",
                   last_reading_ts := none },
       { baseState with sensors := baseState.sensors ++
           [{ id := "S_" ++ "AB12CD34", name := "Good", type := "buoy",
              lat := 1, lon := 2, depth_m := 3, status := "active",
              last_reading_ts := none }] }) :=
  ⟨(C6_deploy_type_validation baseState "Bad" "jellyfish" 1 2 3 "AB12CD34").1
      (by simp [sensorTypeValues]),
   (C6_deploy_type_validation baseState "Good" "buoy" 1 2 3 "AB12CD34").2
      (by simp [sensorTypeValues])⟩

/-- C7: the history query returns exactly the sensor's readings whose
timestamp is strictly greater than the cutoff `now - window` (readings at or
before the cutoff excluded, all readings after it included), and the result
is ordered most-recent-first by timestamp. -/
theorem C7_get_history_window_and_order (s : CollectorState)
    (sensor_id : String) (now window : Int) :
    (∀ r, r ∈ get_history s sensor_id now window ↔
      r ∈ s.readings ∧ r.sensor_id = sensor_id ∧ r.timestamp > now - window) ∧
    (get_history s sensor_id now window).Pairwise
      (fun a b => b.timestamp ≤ a.timestamp) := by
  constructor
  · intro r
    unfold get_history
    rw [List.mem_mergeSort, List.mem_filter]
    simp [and_assoc]
  · unfold get_history
    have htrans : ∀ a b c : OceanReading,
        (fun a b : OceanReading => decide (b.timestamp ≤ a.timestamp)) a b →
        (fun a b : OceanReading => decide (b.timestamp ≤ a.timestamp)) b c →
        (fun a b : OceanReading => decide (b.timestamp ≤ a.timestamp)) a c := by
      intro a b c h1 h2
      simp only [decide_eq_true_eq] at *
      exact le_trans h2 h1
    have htotal : ∀ a b : OceanReading,
        ((fun a b : OceanReading => decide (b.timestamp ≤ a.timestamp)) a b ||
         (fun a b : OceanReading => decide (b.timestamp ≤ a.timestamp)) b a) := by
      intro a b
      by_cases hab : b.timestamp ≤ a.timestamp
      · simp [hab]
      · simp [le_of_not_le hab]
    exact List.Pairwise.imp (fun hb => of_decide_eq_true hb)
      (List.sorted_mergeSort htrans htotal _)

/-- Witness for C7: the sole reading of the store has timestamp 0, at or
before the cutoff 10 − 5, so the 5-unit history window excludes it. -/
theorem C7_witness : unitReading ∉ get_history heatState "S_T1" 10 5 := by
  intro hmem
  have h2 := ((C7_get_history_window_and_order heatState "S_T1" 10 5).1
    unitReading).mp hmem
  norm_num [unitReading] at h2

/-- The heat-content fold accumulates the sum of the per-sensor heat values
and counts the sensors that had a latest reading. -/
lemma heat_foldl (s : CollectorState) (ids : List String) (a : ℚ) (n : Nat) :
    ids.foldl (heatStep s) (a, n) =
      (a + (heatList s ids).sum, n + (heatList s ids).length) := by
  induction ids generalizing a n with
  | nil => simp [heatList]
  | cons i rest ih =>
    rw [List.foldl_cons]
    cases hg : get_latest s i with
    | none =>
      have hstep : heatStep s (a, n) i = (a, n) := by
        unfold heatStep; rw [hg]
      rw [hstep, ih]
      simp [heatList, List.filterMap_cons, hg]
    | some l =>
      have hstep : heatStep s (a, n) i =
          (a + l.temperature_c * l.depth_m * 4186 / 1000, n + 1) := by
        unfold heatStep; rw [hg]
      rw [hstep, ih]
      simp only [heatList, List.filterMap_cons, hg, List.map_cons,
        List.sum_cons, List.length_cons]
      refine Prod.ext ?_ ?_
      · simp; ring
      · simp; omega

/-- C8 as stated is refuted: for a sensor whose latest reading has
temperature 1 and depth 1, the heat value is 4186/1000 = 4.186, but the
returned total is `round(4.186, 2) = 4.19`, not the sum itself. -/
theorem C8_counterexample :
    (calculate_heat_content heatState ["S_T1"]).total_heat_content_kj_m2 ≠
      (1 : ℚ) * 1 * 4186 / 1000 := by
  have hl : get_latest heatState "S_T1" = some unitReading := by
    norm_num [get_latest, latestOf, heatState, unitReading]
  norm_num [calculate_heat_content, heatStep, hl, unitReading, roundTo2,
    roundHalfEven]

/-- C8 (amended): `calculate_heat_content` computes, for each listed sensor
with a latest reading, the heat value temperature × depth × 4186 / 1000; it
returns the sum of these values rounded to two decimal places as the total,
the sum divided by the number of such sensors rounded to two decimal places
as the average, and that number as the count sampled; on the empty list it
returns total 0, average 0 and sampled 0, with no division by zero. -/
theorem C8_heat_content (s : CollectorState) (sensor_ids : List String) :
    calculate_heat_content s sensor_ids =
      { total_heat_content_kj_m2 := roundTo2 (heatList s sensor_ids).sum,
        average_heat_kj_m2 :=
          if (heatList s sensor_ids).length > 0 then
            roundTo2 ((heatList s sensor_ids).sum /
              ((heatList s sensor_ids).length : ℚ))
          else 0,
        sensors_sampled := (heatList s sensor_ids).length } ∧
    calculate_heat_content s [] =
      { total_heat_content_kj_m2 := 0, average_heat_kj_m2 := 0,
        sensors_sampled := 0 } := by
  have hmain : ∀ l : List String, calculate_heat_content s l =
      { total_heat_content_kj_m2 := roundTo2 (heatList s l).sum,
        average_heat_kj_m2 :=
          if (heatList s l).length > 0 then
            roundTo2 ((heatList s l).sum / ((heatList s l).length : ℚ))
          else 0,
        sensors_sampled := (heatList s l).length } := by
    intro l
    unfold calculate_heat_content
    rw [heat_foldl s l 0 0]
    simp
  refine ⟨hmain sensor_ids, ?_⟩
  rw [hmain []]
  norm_num [heatList, roundTo2, roundHalfEven]

/-- C9 as stated is refuted: for the unrecognized parameter `pressure`, an
occupied cell (a sensor with a latest reading) renders `?`, the very same
glyph a sensor with no reading renders, so the no-reading glyph is not
distinct from the glyphs of occupied cells. -/
theorem C9_counterexample :
    cellGlyph "pressure" (some unitReading) = '?' ∧
    cellGlyph "pressure" none = '?' := by
  constructor <;> rfl

/-- C9 (amended): for an unrecognized parameter every occupied cell renders
the placeholder `?`, and a sensor with no reading renders `?` as well — the
no-reading glyph coincides with the unknown-parameter placeholder (it is
distinct only from the temperature and salinity tier glyphs); for
`temperature` the three tiers (> 25, > 15, otherwise) map to three distinct
glyphs. -/
theorem C9_heatmap_glyphs (p : String) (rd : OceanReading) :
    (p ≠ "temperature" → p ≠ "salinity" → cellGlyph p (some rd) = '?') ∧
    cellGlyph p none = '?' ∧
    (rd.temperature_c > 25 →
      cellGlyph "temperature" (some rd) = Char.ofNat 0x2588) ∧
    (rd.temperature_c ≤ 25 → rd.temperature_c > 15 →
      cellGlyph "temperature" (some rd) = Char.ofNat 0x2589) ∧
    (rd.temperature_c ≤ 15 → cellGlyph "temperature" (some rd) = '.') ∧
    Char.ofNat 0x2588 ≠ Char.ofNat 0x2589 ∧ Char.ofNat 0x2588 ≠ '.' ∧
    Char.ofNat 0x2589 ≠ '.' := by
  refine ⟨?_, rfl, ?_, ?_, ?_, by decide, by decide, by decide⟩
  · intro h1 h2
    simp [cellGlyph, h1, h2]
  · intro h
    simp [cellGlyph, h]
  · intro h1 h2
    simp [cellGlyph, not_lt.mpr h1, h2]
  · intro h
    simp [cellGlyph, not_lt.mpr h,
      not_lt.mpr (le_trans h (by norm_num : (15 : ℚ) ≤ 25))]

/-- Witness for C9 (amended): with parameter `pressure` the occupied cell of
the 1-degree reading renders `?`, and with parameter `temperature` it falls
in the lowest tier and renders `.`. -/
theorem C9_witness :
    cellGlyph "pressure" (some unitReading) = '?' ∧
    cellGlyph "temperature" (some unitReading) = '.' :=
  ⟨(C9_heatmap_glyphs "pressure" unitReading).1 (by decide) (by decide),
   (C9_heatmap_glyphs "pressure" unitReading).2.2.2.2.1
     (by norm_num [unitReading])⟩

/-- C10: every sensor deploy_sensor returns is persisted as returned, with
status `active`, no last-reading timestamp, and an id beginning with `S_`;
the caller supplies none of these. -/
theorem C10_deploy_defaults (s : CollectorState) (name type_ : String)
    (lat lon depth_m : ℚ) (fresh : String) (sensor : OceanSensor)
    (s' : CollectorState)
    (h : deploy_sensor s name type_ lat lon depth_m fresh =
      (Except.ok sensor, s')) :
    sensor.status = "active" ∧ sensor.last_reading_ts = none ∧
    (∃ suffix, sensor.id = "S_" ++ suffix) ∧
    s'.sensors = s.sensors ++ [sensor] := by
  unfold deploy_sensor at h
  by_cases hmem : type_ ∈ sensorTypeValues
  · rw [if_pos hmem] at h
    simp only [Prod.mk.injEq, Except.ok.injEq] at h
    obtain ⟨hsen, hs⟩ := h
    subst hsen
    exact ⟨rfl, rfl, ⟨fresh, rfl⟩, by rw [← hs]⟩
  · rw [if_neg hmem] at h
    simp at h

/-- Witness for C10: deploying a buoy on the test store yields a sensor with
status `active`, no last-reading timestamp, id `S_AB12CD34`, appended to the
sensor table. -/
theorem C10_witness :
    ({ id := "S_" ++ "AB12CD34", name := "New Buoy", type := "buoy", lat := 1,
       lon := 2, depth_m := 3, status := "active",
       last_reading_ts := none } : OceanSensor).status = "active" ∧
    ({ id := "S_" ++ "AB12CD34", name := "New Buoy", type := "buoy", lat := 1,
       lon := 2, depth_m := 3, status := "active",
       last_reading_ts := none } : OceanSensor).last_reading_ts = none ∧
    ({ baseState with sensors := baseState.sensors ++
        [{ id := "S_" ++ "AB12CD34", name := "New Buoy", type := "buoy",
           lat := 1, lon := 2, depth_m := 3, status := "active",
           last_reading_ts := none }] } : CollectorState).sensors =
      baseState.sensors ++
        [{ id := "S_" ++ "AB12CD34", name := "New Buoy", type := "buoy",
           lat := 1, lon := 2, depth_m := 3, status := "active",
           last_reading_ts := none }] := by
  have h : deploy_sensor baseState "New Buoy" "buoy" 1 2 3 "AB12CD34" =
      (Except.ok { id := "S_" ++ "AB12CD34", name := "New Buoy",
                   type := "buoy", lat := 1, lon := 2, depth_m := 3,
                   status := "active", last_reading_ts := none },
       { baseState with sensors := baseState.sensors ++
           [{ id := "S_" ++ "AB12CD34", name := "New Buoy", type := "buoy",
              lat := 1, lon := 2, depth_m := 3, status := "active",
              last_reading_ts := none }] }) := by
    simp [deploy_sensor, sensorTypeValues]
  have h2 := C10_deploy_defaults _ _ _ _ _ _ _ _ _ h
  exact ⟨h2.1, h2.2.1, h2.2.2.2⟩

end OceanCollector
